import Mathlib

/-!
Verification of the request-orchestration layer of the news-analysis service
(`src/app.py`).  Python strings are modelled as `List Char` (Python's `len`
and slicing are per-character, matching `List.length` / `List.take`).  The
external analysis client (`nlu.analyze`) is modelled as a function from the
text sent to an outcome (a result, or a raised exception carrying a message);
the document store is modelled by its presence and the outcome of
`create_document`.  The handlers are translated line by line from `app.py`.
-/

/-- Python strings, modelled per character. -/
abbrev PyStr := List Char

/-- Model of Python's `str.lower()`. -/
def pyLower (s : PyStr) : PyStr := s.map Char.toLower

/-- Model of Python's `sub in s` substring test: `sub` occurs contiguously
in `s`. -/
def pyContains (s sub : PyStr) : Bool :=
  (List.range (s.length + 1)).any (fun i => sub.isPrefixOf (s.drop i))

/-- Model of Python's `str.strip()`: drop whitespace from both ends. -/
def pyStrip (s : PyStr) : PyStr :=
  ((s.dropWhile Char.isWhitespace).reverse.dropWhile Char.isWhitespace).reverse

/-- Outcome of a call to the analysis client `nlu.analyze(...).get_result()`:
either a result of type `R`, or a raised exception whose `str(e)` is `msg`. -/
inductive NluOutcome (R : Type) where
  | ok (r : R)
  | raises (msg : PyStr)
deriving DecidableEq

/-- State of the document-store handle `cloudant_db`, together with the
behaviour of `create_document`: absent handle, present handle whose
`create_document` succeeds, or present handle whose `create_document`
raises an exception with the given message. -/
inductive StoreState where
  | absent
  | presentOk
  | presentRaises (msg : PyStr)
deriving DecidableEq

/-- The JSON body of a response from `/analyze`: either an error object
`{'error': msg}` or the analysis result passed through `jsonify`. -/
inductive Body (R : Type) where
  | errJson (msg : PyStr)
  | resultJson (r : R)
deriving DecidableEq

/-- An HTTP response: status code and JSON body. -/
structure HttpResponse (R : Type) where
  status : Nat
  body : Body R
deriving DecidableEq

/-- The document built at `app.py:155-160` and handed to
`cloudant_db.create_document`. -/
structure PersistedRecord (R : Type) where
  timestamp : PyStr
  input_text : PyStr
  input_text_length : Nat
  analysis_result : R
deriving DecidableEq

/-- Observable behaviour of one request to `/analyze`: the HTTP response,
the list of texts passed to `nlu.analyze` (in order), and the list of
documents passed to `cloudant_db.create_document` (in order). -/
structure AnalyzeResult (R : Type) where
  response : HttpResponse R
  nluCalls : List PyStr
  createDocumentCalls : List (PersistedRecord R)
deriving DecidableEq

/-- The error classifier of `app.py:175-185`: maps `str(e)` of an exception
raised by the analysis call to the response returned to the caller. -/
def classifyAnalysisError (R : Type) (msg : PyStr) : HttpResponse R :=
  let m := pyLower msg
  if pyContains m "unauthorized".data then
    ⟨401, Body.errJson "Invalid API credentials. Check your Watson NLU API key.".data⟩
  else if pyContains m "not enough text".data then
    ⟨400, Body.errJson "Not enough text for analysis. Please provide more content.".data⟩
  else if pyContains m "quota".data || pyContains m "limit".data then
    ⟨429, Body.errJson "API usage limit reached. Try again later.".data⟩
  else
    ⟨500, Body.errJson ("Analysis failed: ".data ++ msg)⟩

/-- The `/analyze` handler (`app.py:125-185`).  `nlu` is the analysis-client
handle (`none` models `nlu is None`); when present it is the behaviour of
`nlu.analyze(...).get_result()` as a function of the text sent.  `store`
models the `cloudant_db` handle and its `create_document` behaviour, `now`
the value of `datetime.utcnow().isoformat()`, and `rawNews` the value of
`request.form.get('news', '')`. -/
def analyze (R : Type) (nlu : Option (PyStr → NluOutcome R)) (store : StoreState)
    (now : PyStr) (rawNews : PyStr) : AnalyzeResult R :=
  match nlu with
  | none =>
    ⟨⟨503, Body.errJson "Watson NLU service not available. Check your configuration.".data⟩,
      [], []⟩
  | some nluAnalyze =>
    let text := pyStrip rawNews
    if text = [] then
      ⟨⟨400, Body.errJson "No text provided for analysis".data⟩, [], []⟩
    else if text.length < 15 then
      ⟨⟨400,
        Body.errJson "Text too short for meaningful analysis (minimum 15 characters)".data⟩,
        [], []⟩
    else
      let text := if text.length > 50000 then text.take 50000 else text
      match nluAnalyze text with
      | NluOutcome.ok response =>
        match store with
        | StoreState.absent =>
          ⟨⟨200, Body.resultJson response⟩, [text], []⟩
        | StoreState.presentOk =>
          ⟨⟨200, Body.resultJson response⟩, [text],
            [⟨now, text.take 1000, text.length, response⟩]⟩
        | StoreState.presentRaises _ =>
          ⟨⟨200, Body.resultJson response⟩, [text],
            [⟨now, text.take 1000, text.length, response⟩]⟩
      | NluOutcome.raises e =>
        ⟨classifyAnalysisError R e, [text], []⟩

/-- Body of a `/health` response (`app.py:90-98`): overall status string,
and the per-service entries of the `services` dict. -/
structure HealthCheckResult where
  status : Nat
  overall : PyStr
  nluService : PyStr
  cloudantService : PyStr
deriving DecidableEq

/-- The `/health` handler (`app.py:90-98`).  `nluPresent` models
`nlu is not None`, `cloudantPresent` models `cloudant_db is not None`. -/
def health_check (nluPresent cloudantPresent : Bool) : HealthCheckResult :=
  let nluStatus := if nluPresent then "healthy".data else "unavailable".data
  let cloudantStatus := if cloudantPresent then "healthy".data else "unavailable".data
  if nluPresent = false then
    ⟨503, "error".data, nluStatus, cloudantStatus⟩
  else
    ⟨200, "healthy".data, nluStatus, cloudantStatus⟩

/-- What the process does after module initialization when run as a script. -/
inductive StartupAction where
  | exitProcess (code : Nat)
  | runServer
deriving DecidableEq

/-- The module-level initialization of the analysis handle (`app.py:78-82`):
`initialize_watson_nlu` either returns a handle or raises; the surrounding
`try/except` turns a raise into `nlu = None`. -/
def moduleInitNlu (E H : Type) (initOutcome : Except E H) : Option H :=
  match initOutcome with
  | Except.ok h => some h
  | Except.error _ => none

/-- The `__main__` block (`app.py:217-224`): if `nlu is None` the process
exits with code 1 before `app.run`; otherwise the server runs. -/
def mainStartup (E H : Type) (initOutcome : Except E H) : StartupAction :=
  match moduleInitNlu E H initOutcome with
  | none => StartupAction.exitProcess 1
  | some _ => StartupAction.runServer

/-- Whether a startup action leads to the process serving requests:
only `app.run` (`app.py:224`) serves traffic. -/
def servesTraffic (a : StartupAction) : Bool :=
  match a with
  | StartupAction.runServer => true
  | StartupAction.exitProcess _ => false

/-- The text actually passed to `nlu.analyze` for a given raw form value:
trimmed, then truncated to 50000 characters if longer (`app.py:131,136-137`). -/
def processedText (rawNews : PyStr) : PyStr :=
  let text := pyStrip rawNews
  if text.length > 50000 then text.take 50000 else text

/-! ## Helper lemmas -/

lemma dropWhile_cons_false {p : Char → Bool} {a : Char} {l : List Char}
    (h : p a = false) : (a :: l).dropWhile p = a :: l := by
  simp [List.dropWhile, h]

lemma dropWhile_ws_replicate (n : Nat) (c : Char) (h : c.isWhitespace = false) :
    (List.replicate n c).dropWhile Char.isWhitespace = List.replicate n c := by
  cases n with
  | zero => rfl
  | succ m =>
    rw [List.replicate_succ]
    exact dropWhile_cons_false h

lemma pyStrip_replicate (n : Nat) (c : Char) (h : c.isWhitespace = false) :
    pyStrip (List.replicate n c) = List.replicate n c := by
  unfold pyStrip
  rw [dropWhile_ws_replicate n c h, List.reverse_replicate,
    dropWhile_ws_replicate n c h, List.reverse_replicate]

lemma pyStrip_ne_nil_of_len {s : PyStr} (h : 15 ≤ (pyStrip s).length) :
    ¬ pyStrip s = [] := by
  intro h0
  rw [h0] at h
  exact absurd h (by decide)

lemma processedText_of_le {s : PyStr} (h : (pyStrip s).length ≤ 50000) :
    processedText s = pyStrip s := by
  unfold processedText
  rw [if_neg (not_lt.mpr h)]

lemma processedText_of_gt {s : PyStr} (h : 50000 < (pyStrip s).length) :
    processedText s = (pyStrip s).take 50000 := by
  unfold processedText
  rw [if_pos h]

lemma analyze_ok (R : Type) (f : PyStr → NluOutcome R) (store : StoreState)
    (now rawNews : PyStr) (r : R) (h : 15 ≤ (pyStrip rawNews).length)
    (hok : f (processedText rawNews) = NluOutcome.ok r) :
    analyze R (some f) store now rawNews =
      ⟨⟨200, Body.resultJson r⟩, [processedText rawNews],
        if store = StoreState.absent then []
        else [⟨now, (processedText rawNews).take 1000,
          (processedText rawNews).length, r⟩]⟩ := by
  have hne := pyStrip_ne_nil_of_len h
  have hnlt : ¬ (pyStrip rawNews).length < 15 := not_lt.mpr h
  unfold processedText at hok
  cases store <;>
    simp only [analyze, if_neg hne, if_neg hnlt, hok] <;> rfl

lemma analyze_raises (R : Type) (f : PyStr → NluOutcome R) (store : StoreState)
    (now rawNews msg : PyStr) (h : 15 ≤ (pyStrip rawNews).length)
    (hraise : f (processedText rawNews) = NluOutcome.raises msg) :
    analyze R (some f) store now rawNews =
      ⟨classifyAnalysisError R msg, [processedText rawNews], []⟩ := by
  have hne := pyStrip_ne_nil_of_len h
  have hnlt : ¬ (pyStrip rawNews).length < 15 := not_lt.mpr h
  unfold processedText at hraise
  cases store <;>
    simp only [analyze, if_neg hne, if_neg hnlt, hraise] <;> rfl

/-! ## Claims -/

/-- C1: if construction of the analysis client raises at process start, the
`__main__` block exits with code 1 and the process never serves traffic. -/
theorem c1_init_failure_aborts_startup (E H : Type) (initOutcome : Except E H)
    (e : E) (h : initOutcome = Except.error e) :
    mainStartup E H initOutcome = StartupAction.exitProcess 1 ∧
    servesTraffic (mainStartup E H initOutcome) = false := by
  subst h
  exact ⟨rfl, rfl⟩

theorem c1_witness :
    mainStartup Unit Unit (Except.error ()) = StartupAction.exitProcess 1 ∧
    servesTraffic (mainStartup Unit Unit (Except.error ())) = false :=
  c1_init_failure_aborts_startup Unit Unit (Except.error ()) () rfl

/-- C7: when the analysis-client handle is absent, every request to
`/analyze` — for every input, store state and timestamp — returns 503 with
the fixed error body, performing no validation and never yielding 400. -/
theorem c7_nlu_absent_always_503 (R : Type) (store : StoreState)
    (now rawNews : PyStr) :
    analyze R none store now rawNews =
      ⟨⟨503,
        Body.errJson "Watson NLU service not available. Check your configuration.".data⟩,
        [], []⟩ ∧
    (analyze R none store now rawNews).response.status ≠ 400 := by
  exact ⟨rfl, by simp [analyze]⟩

theorem c7_witness :
    analyze Nat none StoreState.absent [] [] =
      ⟨⟨503,
        Body.errJson "Watson NLU service not available. Check your configuration.".data⟩,
        [], []⟩ ∧
    (analyze Nat none StoreState.absent [] []).response.status ≠ 400 :=
  c7_nlu_absent_always_503 Nat StoreState.absent [] []

/-- C8: `/health` returns 503 iff the analysis handle is absent, 200
otherwise, regardless of the store handle, and reports each dependency's
status individually. -/
theorem c8_health_503_iff_nlu_absent (nluPresent cloudantPresent : Bool) :
    ((health_check nluPresent cloudantPresent).status = 503 ↔ nluPresent = false) ∧
    (nluPresent = true → (health_check nluPresent cloudantPresent).status = 200) ∧
    (health_check nluPresent cloudantPresent).nluService =
      (if nluPresent then "healthy".data else "unavailable".data) ∧
    (health_check nluPresent cloudantPresent).cloudantService =
      (if cloudantPresent then "healthy".data else "unavailable".data) := by
  cases nluPresent <;> cases cloudantPresent <;> simp [health_check]

theorem c8_witness :
    ((health_check false true).status = 503 ↔ false = false) ∧
    (false = true → (health_check false true).status = 200) ∧
    (health_check false true).nluService =
      (if false then "healthy".data else "unavailable".data) ∧
    (health_check false true).cloudantService =
      (if true then "healthy".data else "unavailable".data) :=
  c8_health_503_iff_nlu_absent false true

/-- C6: when the trimmed input is empty, `/analyze` returns 400 with body
`{'error': 'No text provided for analysis'}`; when it is nonempty but
shorter than 15 characters, 400 with the "too short" message; in both
cases the analysis client is never invoked. -/
theorem c6_short_input_rejected (R : Type) (f : PyStr → NluOutcome R)
    (store : StoreState) (now rawNews : PyStr)
    (h : (pyStrip rawNews).length < 15) :
    analyze R (some f) store now rawNews =
      ⟨⟨400, Body.errJson
        (if pyStrip rawNews = [] then "No text provided for analysis".data
         else "Text too short for meaningful analysis (minimum 15 characters)".data)⟩,
        [], []⟩ := by
  by_cases he : pyStrip rawNews = []
  · simp [analyze, he]
  · simp [analyze, he, h]

theorem c6_witness :
    analyze Nat (some (fun _ => NluOutcome.ok 0)) StoreState.absent []
        "   ".data =
      ⟨⟨400, Body.errJson
        (if pyStrip "   ".data = [] then "No text provided for analysis".data
         else "Text too short for meaningful analysis (minimum 15 characters)".data)⟩,
        [], []⟩ :=
  c6_short_input_rejected Nat (fun _ => NluOutcome.ok 0) StoreState.absent []
    "   ".data (by decide)

/-- C2: whenever the analysis call succeeds, `/analyze` responds 200 with
the upstream result verbatim, for every store state — absent handle and
raising `create_document` included — so persistence never alters the
response. -/
theorem c2_response_independent_of_persistence (R : Type)
    (f : PyStr → NluOutcome R) (store : StoreState) (now rawNews : PyStr)
    (r : R) (hlen : 15 ≤ (pyStrip rawNews).length)
    (hok : f (processedText rawNews) = NluOutcome.ok r) :
    (analyze R (some f) store now rawNews).response =
      ⟨200, Body.resultJson r⟩ := by
  rw [analyze_ok R f store now rawNews r hlen hok]

theorem c2_witness :
    (analyze Nat (some (fun _ => NluOutcome.ok 37))
        (StoreState.presentRaises "db down".data) [] "fifteen chars ok".data).response =
      ⟨200, Body.resultJson 37⟩ :=
  c2_response_independent_of_persistence Nat (fun _ => NluOutcome.ok 37)
    (StoreState.presentRaises "db down".data) [] "fifteen chars ok".data 37
    (by decide) rfl

/-- C4: for trimmed length in [15, 50000], `/analyze` passes the trimmed
text, unchanged, to the analysis client in exactly one call, and on success
returns the client's result verbatim. -/
theorem c4_in_range_single_call (R : Type) (f : PyStr → NluOutcome R)
    (store : StoreState) (now rawNews : PyStr)
    (h1 : 15 ≤ (pyStrip rawNews).length)
    (h2 : (pyStrip rawNews).length ≤ 50000) :
    (analyze R (some f) store now rawNews).nluCalls = [pyStrip rawNews] ∧
    ∀ r, f (pyStrip rawNews) = NluOutcome.ok r →
      (analyze R (some f) store now rawNews).response =
        ⟨200, Body.resultJson r⟩ := by
  have hpt : processedText rawNews = pyStrip rawNews := processedText_of_le h2
  constructor
  · cases hf : f (pyStrip rawNews) with
    | ok r =>
      rw [analyze_ok R f store now rawNews r h1 (by rw [hpt]; exact hf)]
      simp [hpt]
    | raises m =>
      rw [analyze_raises R f store now rawNews m h1 (by rw [hpt]; exact hf)]
      simp [hpt]
  · intro r hok
    rw [analyze_ok R f store now rawNews r h1 (by rw [hpt]; exact hok)]

theorem c4_witness :
    (analyze Nat (some (fun _ => NluOutcome.ok 5)) StoreState.presentOk []
        "fifteen chars ok!".data).nluCalls = [pyStrip "fifteen chars ok!".data] ∧
    (analyze Nat (some (fun _ => NluOutcome.ok 5)) StoreState.presentOk []
        "fifteen chars ok!".data).response = ⟨200, Body.resultJson 5⟩ :=
  ⟨(c4_in_range_single_call Nat (fun _ => NluOutcome.ok 5) StoreState.presentOk []
      "fifteen chars ok!".data (by decide) (by decide)).1,
   (c4_in_range_single_call Nat (fun _ => NluOutcome.ok 5) StoreState.presentOk []
      "fifteen chars ok!".data (by decide) (by decide)).2 5 rfl⟩

/-- C5: for trimmed length above 50000, `/analyze` does not reject the
request: the analysis client is still invoked exactly once, and the text
passed to it has length exactly 50000 and is a prefix of the trimmed
original. -/
theorem c5_truncation_not_rejection (R : Type) (f : PyStr → NluOutcome R)
    (store : StoreState) (now rawNews : PyStr)
    (h : 50000 < (pyStrip rawNews).length) :
    (analyze R (some f) store now rawNews).nluCalls =
      [(pyStrip rawNews).take 50000] ∧
    ((pyStrip rawNews).take 50000).length = 50000 ∧
    (pyStrip rawNews).take 50000 <+: pyStrip rawNews := by
  have h1 : 15 ≤ (pyStrip rawNews).length :=
    le_trans (by decide) (le_of_lt h)
  have hpt := processedText_of_gt h
  refine ⟨?_, ?_, List.take_prefix 50000 (pyStrip rawNews)⟩
  · cases hf : f (processedText rawNews) with
    | ok r =>
      rw [analyze_ok R f store now rawNews r h1 hf]
      simp [hpt]
    | raises m =>
      rw [analyze_raises R f store now rawNews m h1 hf]
      simp [hpt]
  · rw [List.length_take]
    exact min_eq_left (le_of_lt h)

theorem c5_witness :
    (analyze Nat (some (fun _ => NluOutcome.ok 0)) StoreState.absent []
        (List.replicate 50001 'a')).nluCalls =
      [(pyStrip (List.replicate 50001 'a')).take 50000] ∧
    ((pyStrip (List.replicate 50001 'a')).take 50000).length = 50000 ∧
    (pyStrip (List.replicate 50001 'a')).take 50000 <+:
      pyStrip (List.replicate 50001 'a') :=
  c5_truncation_not_rejection Nat (fun _ => NluOutcome.ok 0) StoreState.absent []
    (List.replicate 50001 'a')
    (by rw [pyStrip_replicate 50001 'a' (by decide), List.length_replicate]; decide)

/-- C3: every failure raised by the analysis call is classified by
case-insensitive substring match on its message, in priority order:
"unauthorized" gives 401, else "not enough text" gives 400, else "quota"
or "limit" gives 429, else 500. -/
theorem c3_error_classifier_priority (R : Type) (f : PyStr → NluOutcome R)
    (store : StoreState) (now rawNews msg : PyStr)
    (hlen : 15 ≤ (pyStrip rawNews).length)
    (hraise : f (processedText rawNews) = NluOutcome.raises msg) :
    (analyze R (some f) store now rawNews).response.status =
      (if pyContains (pyLower msg) "unauthorized".data = true then 401
       else if pyContains (pyLower msg) "not enough text".data = true then 400
       else if pyContains (pyLower msg) "quota".data = true ∨
           pyContains (pyLower msg) "limit".data = true then 429
       else 500) := by
  rw [analyze_raises R f store now rawNews msg hlen hraise]
  by_cases h1 : pyContains (pyLower msg) "unauthorized".data = true
  · simp [classifyAnalysisError, h1]
  · by_cases h2 : pyContains (pyLower msg) "not enough text".data = true
    · simp [classifyAnalysisError, h1, h2]
    · by_cases h3 : pyContains (pyLower msg) "quota".data = true
      · simp [classifyAnalysisError, h1, h2, h3]
      · by_cases h4 : pyContains (pyLower msg) "limit".data = true
        · simp [classifyAnalysisError, h1, h2, h3, h4]
        · simp [classifyAnalysisError, h1, h2, h3, h4]

theorem c3_witness :
    (analyze Nat (some (fun _ => NluOutcome.raises "Unauthorized access".data))
        StoreState.absent [] "fifteen chars okay".data).response.status =
      (if pyContains (pyLower "Unauthorized access".data) "unauthorized".data = true
         then 401
       else if pyContains (pyLower "Unauthorized access".data) "not enough text".data = true
         then 400
       else if pyContains (pyLower "Unauthorized access".data) "quota".data = true ∨
           pyContains (pyLower "Unauthorized access".data) "limit".data = true then 429
       else 500) :=
  c3_error_classifier_priority Nat (fun _ => NluOutcome.raises "Unauthorized access".data)
    StoreState.absent [] "fifteen chars okay".data "Unauthorized access".data
    (by decide) rfl

/-- C10: when a raised analysis failure matches none of the classifier
substrings, the 500 response body's error field is the string
"Analysis failed: " followed by the upstream exception's message verbatim. -/
theorem c10_unclassified_error_message_exposed (R : Type)
    (f : PyStr → NluOutcome R) (store : StoreState) (now rawNews msg : PyStr)
    (hlen : 15 ≤ (pyStrip rawNews).length)
    (hraise : f (processedText rawNews) = NluOutcome.raises msg)
    (h1 : pyContains (pyLower msg) "unauthorized".data = false)
    (h2 : pyContains (pyLower msg) "not enough text".data = false)
    (h3 : pyContains (pyLower msg) "quota".data = false)
    (h4 : pyContains (pyLower msg) "limit".data = false) :
    (analyze R (some f) store now rawNews).response =
      ⟨500, Body.errJson ("Analysis failed: ".data ++ msg)⟩ := by
  rw [analyze_raises R f store now rawNews msg hlen hraise]
  simp [classifyAnalysisError, h1, h2, h3, h4]

theorem c10_witness :
    (analyze Nat (some (fun _ => NluOutcome.raises "remote socket reset".data))
        StoreState.absent [] "fifteen chars here".data).response =
      ⟨500, Body.errJson ("Analysis failed: ".data ++ "remote socket reset".data)⟩ :=
  c10_unclassified_error_message_exposed Nat
    (fun _ => NluOutcome.raises "remote socket reset".data)
    StoreState.absent [] "fifteen chars here".data "remote socket reset".data
    (by decide) rfl (by decide) (by decide) (by decide) (by decide)

/-- C9 counterexample: for an input of 50001 non-whitespace characters the
document handed to `create_document` records `input_text_length = 50000`
(the post-truncation length), while the trimmed original input has length
50001 — so the record does not contain the original input text's length. -/
theorem c9_counterexample :
    ((analyze Nat (some (fun _ => NluOutcome.ok 0)) StoreState.presentOk []
        (List.replicate 50001 'a')).createDocumentCalls.map
          (fun d => d.input_text_length)) = [50000] ∧
    (pyStrip (List.replicate 50001 'a')).length = 50001 ∧
    (50000 : Nat) ≠ 50001 := by
  have hstrip := pyStrip_replicate 50001 'a' (by decide)
  have hlen : 15 ≤ (pyStrip (List.replicate 50001 'a')).length := by
    rw [hstrip, List.length_replicate]; decide
  have hgt : 50000 < (pyStrip (List.replicate 50001 'a')).length := by
    rw [hstrip, List.length_replicate]; decide
  have hpt := processedText_of_gt hgt
  refine ⟨?_, by rw [hstrip, List.length_replicate], by decide⟩
  rw [analyze_ok Nat (fun _ => NluOutcome.ok 0) StoreState.presentOk []
    (List.replicate 50001 'a') 0 hlen rfl]
  rw [hpt, hstrip]
  simp only [if_neg (by decide : ¬ StoreState.presentOk = StoreState.absent),
    List.map_cons, List.map_nil, List.length_take, List.length_replicate]
  norm_num

/-- C9 amended: for every successful analysis with the store handle present,
the persisted record holds the timestamp, the first 1000 characters of the
trimmed input, the analysis result, and the length of the analyzed text
after truncation — `min` of the trimmed length and 50000, not the original
trimmed length. -/
theorem c9_amended_record_contents (R : Type) (f : PyStr → NluOutcome R)
    (store : StoreState) (now rawNews : PyStr) (r : R)
    (hstore : store ≠ StoreState.absent)
    (hlen : 15 ≤ (pyStrip rawNews).length)
    (hok : f (processedText rawNews) = NluOutcome.ok r) :
    (analyze R (some f) store now rawNews).createDocumentCalls =
      [⟨now, (pyStrip rawNews).take 1000,
        min (pyStrip rawNews).length 50000, r⟩] := by
  have htake : (processedText rawNews).take 1000 = (pyStrip rawNews).take 1000 := by
    rcases le_or_lt (pyStrip rawNews).length 50000 with hle | hgt
    · rw [processedText_of_le hle]
    · rw [processedText_of_gt hgt, List.take_take]
      norm_num
  have hlength : (processedText rawNews).length =
      min (pyStrip rawNews).length 50000 := by
    rcases le_or_lt (pyStrip rawNews).length 50000 with hle | hgt
    · rw [processedText_of_le hle, min_eq_left hle]
    · rw [processedText_of_gt hgt, List.length_take,
        min_eq_right (le_of_lt hgt), min_eq_left (le_of_lt hgt)]
  rw [analyze_ok R f store now rawNews r hlen hok]
  simp [hstore, htake, hlength]

theorem c9_witness :
    (analyze Nat (some (fun _ => NluOutcome.ok 9)) StoreState.presentOk []
        "sixteen chars ok".data).createDocumentCalls =
      [⟨[], (pyStrip "sixteen chars ok".data).take 1000,
        min (pyStrip "sixteen chars ok".data).length 50000, 9⟩] :=
  c9_amended_record_contents Nat (fun _ => NluOutcome.ok 9) StoreState.presentOk []
    "sixteen chars ok".data 9 (by decide) (by decide) rfl
